import Mathlib

/-!
Verification of the robot alignment program in Main_robot.py: the direction
rule tables, the robot link send and reconnect logic, and the alignment
controller state machine, embedded shallowly with explicit state passing.
Error values are rationals (Python ints and floats flow into the same
comparisons); pixel coordinates are integers; transport outcomes are made
explicit booleans.
-/

/-- Lower bound test of a rule interval: low <= value, where none models
negative infinity, as in the Python pairs using -float inf. -/
def lowOk : Option ℚ → ℚ → Bool
  | none, _ => true
  | some l, v => decide (l ≤ v)

/-- Upper bound test of a rule interval: value < high, where none models
positive infinity. -/
def highOk : Option ℚ → ℚ → Bool
  | none, _ => true
  | some h, v => decide (v < h)

/-- X axis direction rules, Main_robot.py lines 31 to 38. -/
def X_RULES : List ((Option ℚ × Option ℚ) × String) :=
  [ ((none, some (-100)), "lleft"),
    ((some (-100), some (-20)), "mleft"),
    ((some (-20), some (-1)), "left"),
    ((some 1, some 20), "right"),
    ((some 20, some 100), "mright"),
    ((some 100, none), "lright") ]

/-- Y axis direction rules, Main_robot.py lines 40 to 47. -/
def Y_RULES : List ((Option ℚ × Option ℚ) × String) :=
  [ ((none, some (-100)), "ltop"),
    ((some (-100), some (-20)), "mtop"),
    ((some (-20), some (-1)), "top"),
    ((some 1, some 20), "low"),
    ((some 20, some 100), "mlow"),
    ((some 100, none), "llow") ]

/-- AlignmentController.get_direction_command, lines 207 to 213: the token
of the first rule whose half open interval contains the value, else none. -/
def get_direction_command (value : ℚ) :
    List ((Option ℚ × Option ℚ) × String) → Option String
  | [] => none
  | ((lo, hi), cmd) :: rest =>
    if lowOk lo value && highOk hi value then some cmd
    else get_direction_command value rest

/-- Number of rules of a table whose interval contains the value, used to
analyse totality and overlap of the six bucket partition. -/
def matchCount (value : ℚ) :
    List ((Option ℚ × Option ℚ) × String) → Nat
  | [] => 0
  | ((lo, hi), _) :: rest =>
    (if lowOk lo value && highOk hi value then 1 else 0) + matchCount value rest

lemma region_split (e : ℚ) :
    e < -100 ∨ (-100 ≤ e ∧ e < -20) ∨ (-20 ≤ e ∧ e < -1) ∨ (-1 ≤ e ∧ e < 1) ∨
    (1 ≤ e ∧ e < 20) ∨ (20 ≤ e ∧ e < 100) ∨ 100 ≤ e := by
  rcases lt_or_le e (-100) with h | h
  · exact Or.inl h
  rcases lt_or_le e (-20) with h2 | h2
  · exact Or.inr (Or.inl ⟨h, h2⟩)
  rcases lt_or_le e (-1) with h3 | h3
  · exact Or.inr (Or.inr (Or.inl ⟨h2, h3⟩))
  rcases lt_or_le e 1 with h4 | h4
  · exact Or.inr (Or.inr (Or.inr (Or.inl ⟨h3, h4⟩)))
  rcases lt_or_le e 20 with h5 | h5
  · exact Or.inr (Or.inr (Or.inr (Or.inr (Or.inl ⟨h4, h5⟩))))
  rcases lt_or_le e 100 with h6 | h6
  · exact Or.inr (Or.inr (Or.inr (Or.inr (Or.inr (Or.inl ⟨h5, h6⟩)))))
  · exact Or.inr (Or.inr (Or.inr (Or.inr (Or.inr (Or.inr h6)))))

lemma tables_eval (e : ℚ) :
    (get_direction_command e X_RULES =
      if e < -100 then some "lleft"
      else if e < -20 then some "mleft"
      else if e < -1 then some "left"
      else if e < 1 then none
      else if e < 20 then some "right"
      else if e < 100 then some "mright"
      else some "lright") ∧
    (get_direction_command e Y_RULES =
      if e < -100 then some "ltop"
      else if e < -20 then some "mtop"
      else if e < -1 then some "top"
      else if e < 1 then none
      else if e < 20 then some "low"
      else if e < 100 then some "mlow"
      else some "llow") ∧
    (matchCount e X_RULES = if -1 ≤ e ∧ e < 1 then 0 else 1) ∧
    (matchCount e Y_RULES = if -1 ≤ e ∧ e < 1 then 0 else 1) := by
  rcases region_split e with h | ⟨h1, h2⟩ | ⟨h1, h2⟩ | ⟨h1, h2⟩ | ⟨h1, h2⟩ |
    ⟨h1, h2⟩ | h
  · have a1 : ¬ (-100 : ℚ) ≤ e := by linarith
    have a2 : ¬ (-20 : ℚ) ≤ e := by linarith
    have a3 : ¬ (1 : ℚ) ≤ e := by linarith
    have a4 : ¬ (20 : ℚ) ≤ e := by linarith
    have a5 : ¬ (100 : ℚ) ≤ e := by linarith
    have a6 : ¬ (-1 : ℚ) ≤ e := by linarith
    refine ⟨?_, ?_, ?_, ?_⟩ <;>
      simp [get_direction_command, matchCount, X_RULES, Y_RULES, lowOk, highOk,
        h, a1, a2, a3, a4, a5, a6]
  · have a1 : ¬ e < -100 := by linarith
    have a2 : ¬ (-20 : ℚ) ≤ e := by linarith
    have a3 : ¬ (1 : ℚ) ≤ e := by linarith
    have a4 : ¬ (20 : ℚ) ≤ e := by linarith
    have a5 : ¬ (100 : ℚ) ≤ e := by linarith
    have a6 : ¬ (-1 : ℚ) ≤ e := by linarith
    refine ⟨?_, ?_, ?_, ?_⟩ <;>
      simp [get_direction_command, matchCount, X_RULES, Y_RULES, lowOk, highOk,
        h1, h2, a1, a2, a3, a4, a5, a6]
  · have a1 : ¬ e < -100 := by linarith
    have a2 : (-100 : ℚ) ≤ e := by linarith
    have a3 : ¬ e < -20 := by linarith
    have a4 : ¬ (1 : ℚ) ≤ e := by linarith
    have a5 : ¬ (20 : ℚ) ≤ e := by linarith
    have a6 : ¬ (100 : ℚ) ≤ e := by linarith
    have a7 : ¬ (-1 : ℚ) ≤ e := by linarith
    refine ⟨?_, ?_, ?_, ?_⟩ <;>
      simp [get_direction_command, matchCount, X_RULES, Y_RULES, lowOk, highOk,
        h1, h2, a1, a2, a3, a4, a5, a6, a7]
  · have a1 : ¬ e < -100 := by linarith
    have a2 : (-100 : ℚ) ≤ e := by linarith
    have a3 : ¬ e < -20 := by linarith
    have a4 : (-20 : ℚ) ≤ e := by linarith
    have a5 : ¬ e < -1 := by linarith
    have a6 : ¬ (1 : ℚ) ≤ e := by linarith
    have a7 : ¬ (20 : ℚ) ≤ e := by linarith
    have a8 : ¬ (100 : ℚ) ≤ e := by linarith
    refine ⟨?_, ?_, ?_, ?_⟩ <;>
      simp [get_direction_command, matchCount, X_RULES, Y_RULES, lowOk, highOk,
        h1, h2, a1, a2, a3, a4, a5, a6, a7, a8]
  · have a1 : ¬ e < -100 := by linarith
    have a2 : (-100 : ℚ) ≤ e := by linarith
    have a3 : ¬ e < -20 := by linarith
    have a4 : (-20 : ℚ) ≤ e := by linarith
    have a5 : ¬ e < -1 := by linarith
    have a6 : ¬ e < 1 := by linarith
    have a7 : ¬ (20 : ℚ) ≤ e := by linarith
    have a8 : ¬ (100 : ℚ) ≤ e := by linarith
    have a9 : (-1 : ℚ) ≤ e := by linarith
    refine ⟨?_, ?_, ?_, ?_⟩ <;>
      simp [get_direction_command, matchCount, X_RULES, Y_RULES, lowOk, highOk,
        h1, h2, a1, a2, a3, a4, a5, a6, a7, a8, a9]
  · have a1 : ¬ e < -100 := by linarith
    have a2 : (-100 : ℚ) ≤ e := by linarith
    have a3 : ¬ e < -20 := by linarith
    have a4 : (-20 : ℚ) ≤ e := by linarith
    have a5 : ¬ e < -1 := by linarith
    have a6 : ¬ e < 1 := by linarith
    have a7 : (1 : ℚ) ≤ e := by linarith
    have a8 : ¬ e < 20 := by linarith
    have a9 : ¬ (100 : ℚ) ≤ e := by linarith
    have a10 : (-1 : ℚ) ≤ e := by linarith
    refine ⟨?_, ?_, ?_, ?_⟩ <;>
      simp [get_direction_command, matchCount, X_RULES, Y_RULES, lowOk, highOk,
        h1, h2, a1, a2, a3, a4, a5, a6, a7, a8, a9, a10]
  · have a1 : ¬ e < -100 := by linarith
    have a2 : (-100 : ℚ) ≤ e := by linarith
    have a3 : ¬ e < -20 := by linarith
    have a4 : (-20 : ℚ) ≤ e := by linarith
    have a5 : ¬ e < -1 := by linarith
    have a6 : ¬ e < 1 := by linarith
    have a7 : (1 : ℚ) ≤ e := by linarith
    have a8 : ¬ e < 20 := by linarith
    have a9 : (20 : ℚ) ≤ e := by linarith
    have a10 : ¬ e < 100 := by linarith
    have a11 : (-1 : ℚ) ≤ e := by linarith
    refine ⟨?_, ?_, ?_, ?_⟩ <;>
      simp [get_direction_command, matchCount, X_RULES, Y_RULES, lowOk, highOk,
        h, a1, a2, a3, a4, a5, a6, a7, a8, a9, a10, a11]

lemma gdc_X_eq (e : ℚ) :
    get_direction_command e X_RULES =
      if e < -100 then some "lleft"
      else if e < -20 then some "mleft"
      else if e < -1 then some "left"
      else if e < 1 then none
      else if e < 20 then some "right"
      else if e < 100 then some "mright"
      else some "lright" :=
  (tables_eval e).1

lemma gdc_Y_eq (e : ℚ) :
    get_direction_command e Y_RULES =
      if e < -100 then some "ltop"
      else if e < -20 then some "mtop"
      else if e < -1 then some "top"
      else if e < 1 then none
      else if e < 20 then some "low"
      else if e < 100 then some "mlow"
      else some "llow" :=
  (tables_eval e).2.1

lemma mc_X_eq (e : ℚ) :
    matchCount e X_RULES = if -1 ≤ e ∧ e < 1 then 0 else 1 :=
  (tables_eval e).2.2.1

lemma mc_Y_eq (e : ℚ) :
    matchCount e Y_RULES = if -1 ≤ e ∧ e < 1 then 0 else 1 :=
  (tables_eval e).2.2.2

lemma gdc_none_iff_mc_zero (v : ℚ) :
    ∀ rules, (get_direction_command v rules = none ↔ matchCount v rules = 0) := by
  intro rules
  induction rules with
  | nil => simp [get_direction_command, matchCount]
  | cons r rest ih =>
    obtain ⟨⟨lo, hi⟩, cmd⟩ := r
    by_cases hc : (lowOk lo v && highOk hi v) = true
    · simp [get_direction_command, matchCount, hc]
    · simp [get_direction_command, matchCount, hc, ih]

/-- Claim C1 (amended): the six intervals of each table are pairwise non
overlapping, but the partition is not total: a value in the half open dead
band from -1 inclusive to 1 exclusive matches no interval and the lookup
reaches its None fallback, while every value outside that band matches
exactly one interval. -/
theorem C1_partition_amended (e : ℚ) :
    (matchCount e X_RULES = if -1 ≤ e ∧ e < 1 then 0 else 1) ∧
    (matchCount e Y_RULES = if -1 ≤ e ∧ e < 1 then 0 else 1) ∧
    (get_direction_command e X_RULES = none ↔ -1 ≤ e ∧ e < 1) ∧
    (get_direction_command e Y_RULES = none ↔ -1 ≤ e ∧ e < 1) := by
  refine ⟨mc_X_eq e, mc_Y_eq e, ?_, ?_⟩
  · rw [gdc_none_iff_mc_zero, mc_X_eq]
    split_ifs with h <;> simp [h]
  · rw [gdc_none_iff_mc_zero, mc_Y_eq]
    split_ifs with h <;> simp [h]

/-- Claim C1 counterexample: the error value 0 matches no rule of either
table, so the six bucket partition is not total and the no command fallback
of the lookup is reached, refuting the claim as stated. -/
theorem C1_cex_zero_unmapped :
    get_direction_command 0 X_RULES = none ∧
    get_direction_command 0 Y_RULES = none ∧
    matchCount 0 X_RULES = 0 ∧ matchCount 0 Y_RULES = 0 := by decide

/-- Claim C2 (amended): the dead band is the half open interval from -1
inclusive to 1 exclusive: there both lookups yield the stop token of their
axis; the boundary value 1 already yields the near positive tokens right
and low; the values 2 and -2 yield near tokens, 50 the mid tokens and 150
the far tokens. -/
theorem C2_dead_band_amended (e : ℚ) :
    (-1 ≤ e → e < 1 →
      (get_direction_command e X_RULES).getD "stopx" = "stopx" ∧
      (get_direction_command e Y_RULES).getD "stopy" = "stopy") ∧
    get_direction_command 2 X_RULES = some "right" ∧
    get_direction_command (-2) X_RULES = some "left" ∧
    get_direction_command 2 Y_RULES = some "low" ∧
    get_direction_command (-2) Y_RULES = some "top" ∧
    get_direction_command 50 X_RULES = some "mright" ∧
    get_direction_command 50 Y_RULES = some "mlow" ∧
    get_direction_command 150 X_RULES = some "lright" ∧
    get_direction_command 150 Y_RULES = some "llow" ∧
    get_direction_command 1 X_RULES = some "right" ∧
    get_direction_command 1 Y_RULES = some "low" := by
  refine ⟨?_, by decide, by decide, by decide, by decide, by decide,
    by decide, by decide, by decide, by decide, by decide⟩
  intro h1 h2
  have a1 : ¬ e < -100 := by linarith
  have a2 : ¬ e < -20 := by linarith
  have a3 : ¬ e < -1 := by linarith
  rw [gdc_X_eq, gdc_Y_eq]
  simp [a1, a2, a3, h2]

/-- Witness for claim C2: at the concrete dead band value 0 both axis
lookups yield their stop token. -/
theorem C2_dead_band_amended_witness :
    (get_direction_command 0 X_RULES).getD "stopx" = "stopx" ∧
    (get_direction_command 0 Y_RULES).getD "stopy" = "stopy" :=
  (C2_dead_band_amended 0).1 (by norm_num) (by norm_num)

/-- Claim C2 counterexample: the value 1 lies in the closed interval from
-1 to 1 of the claim, yet the x lookup yields right and the y lookup yields
low rather than the stop tokens. -/
theorem C2_cex_boundary_one :
    get_direction_command 1 X_RULES = some "right" ∧
    (get_direction_command 1 X_RULES).getD "stopx" ≠ "stopx" ∧
    (get_direction_command 1 Y_RULES).getD "stopy" ≠ "stopy" := by decide

/-- Robot link state: whether self.sock currently holds a socket object and
the is_connected flag of RobotController. -/
structure LinkState where
  sockSome : Bool
  is_connected : Bool
deriving DecidableEq

/-- RobotController.connect, lines 81 to 98, with ok standing for the
outcome of the socket connect call: any previous handle is closed and
dropped and a fresh socket object is stored either way; is_connected
becomes true on success and is left unchanged on failure, because the
except branch only prints and returns False. -/
def RobotController.connect (l : LinkState) (ok : Bool) : Bool × LinkState :=
  if ok then (true, ⟨true, true⟩)
  else (false, ⟨true, l.is_connected⟩)

/-- Outcome of one RobotController.send call: the returned boolean, the
final link state, the number of reconnect attempts made and the number of
retried writes after the first one. -/
structure SendResult where
  ok : Bool
  state : LinkState
  reconnects : Nat
  retries : Nat
deriving DecidableEq

/-- RobotController.send, lines 111 to 132, with the transport outcomes
explicit: w1 is whether the first sendall succeeds, c whether the reconnect
succeeds, w2 whether the retried sendall succeeds. Not connected reports
failure at once; a first write failure triggers exactly one reconnect and,
when that succeeds, exactly one retried write; a retried write failure
drops the handle and clears is_connected. -/
def RobotController.send (l : LinkState) (_message : String) (w1 c w2 : Bool) :
    SendResult :=
  if l.is_connected = false then ⟨false, l, 0, 0⟩
  else if w1 then ⟨true, l, 0, 0⟩
  else
    let rc := RobotController.connect l c
    if rc.1 then
      if w2 then ⟨true, rc.2, 1, 1⟩
      else ⟨false, ⟨false, false⟩, 1, 1⟩
    else ⟨false, rc.2, 1, 0⟩

/-- Claim C3 counterexample: link connected, the first write fails and the
reconnect also fails: send returns failure but is_connected is still true,
because the connect failure path never clears the flag, so the link does
not end in the Disconnected state as claimed. -/
theorem C3_cex_reconnect_fail_still_connected :
    (RobotController.send ⟨true, true⟩ "mleft" false false false).ok = false ∧
    (RobotController.send ⟨true, true⟩ "mleft" false false false).state.is_connected
      = true := by decide

/-- Claim C3 (amended): on a connected link whose first write fails, send
attempts exactly one reconnect; if the reconnect succeeds there is exactly
one retried write, and send succeeds or, on a retried write failure,
reports failure with the link left disconnected; if the reconnect fails,
send reports failure without any retried write but is_connected keeps its
previous value true, so the link is not marked disconnected. -/
theorem C3_send_retry (l : LinkState) (m : String) (c w2 : Bool)
    (h : l.is_connected = true) :
    (RobotController.send l m false c w2).reconnects = 1 ∧
    (c = true → (RobotController.send l m false c w2).retries = 1) ∧
    (c = true → w2 = true → (RobotController.send l m false c w2).ok = true ∧
      (RobotController.send l m false c w2).state.is_connected = true) ∧
    (c = true → w2 = false → (RobotController.send l m false c w2).ok = false ∧
      (RobotController.send l m false c w2).state.is_connected = false) ∧
    (c = false → (RobotController.send l m false c w2).retries = 0 ∧
      (RobotController.send l m false c w2).ok = false ∧
      (RobotController.send l m false c w2).state.is_connected = true) := by
  cases c <;> cases w2 <;>
    simp [RobotController.send, RobotController.connect, h]

/-- Witness for claim C3: concrete connected link, failing first write,
successful reconnect, failing retried write. -/
theorem C3_send_retry_witness :
    (RobotController.send ⟨true, true⟩ "stopz" false true false).reconnects = 1 ∧
    (true = true → (RobotController.send ⟨true, true⟩ "stopz" false true false).retries = 1) ∧
    (true = true → false = true →
      (RobotController.send ⟨true, true⟩ "stopz" false true false).ok = true ∧
      (RobotController.send ⟨true, true⟩ "stopz" false true false).state.is_connected = true) ∧
    (true = true → false = false →
      (RobotController.send ⟨true, true⟩ "stopz" false true false).ok = false ∧
      (RobotController.send ⟨true, true⟩ "stopz" false true false).state.is_connected = false) ∧
    (true = false → (RobotController.send ⟨true, true⟩ "stopz" false true false).retries = 0 ∧
      (RobotController.send ⟨true, true⟩ "stopz" false true false).ok = false ∧
      (RobotController.send ⟨true, true⟩ "stopz" false true false).state.is_connected = true) :=
  C3_send_retry ⟨true, true⟩ "stopz" true false rfl

/-- Alignment controller flags, AlignmentController lines 200 to 205. -/
structure AlignState where
  is_adjusting_ry : Bool
  adjust_position : Bool
  has_aligned_once : Bool
deriving DecidableEq

/-- Initial flag values set by the AlignmentController constructor. -/
def AlignmentController.init : AlignState :=
  { is_adjusting_ry := false, adjust_position := true, has_aligned_once := false }

/-- AlignmentController.reset_alignment, lines 257 to 262. -/
def reset_alignment (s : AlignState) : AlignState :=
  { s with
    adjust_position := true
    is_adjusting_ry := true
    has_aligned_once := false }

/-- Transport outcomes for the successive robot.send calls of a run: each
entry is (first write ok, reconnect ok, retried write ok); an exhausted
list models a transport on which everything succeeds. -/
abbrev SendOracle := List (Bool × Bool × Bool)

/-- Next transport outcome and remaining oracle. -/
def popOracle : SendOracle → (Bool × Bool × Bool) × SendOracle
  | [] => ((true, true, true), [])
  | o :: rest => (o, rest)

/-- One robot.send call inside the controller logic: consumes one oracle
entry and yields the attempted message with its success flag, the new link
state and the remaining oracle. -/
def robotSend (l : LinkState) (msg : String) (os : SendOracle) :
    (String × Bool) × LinkState × SendOracle :=
  let p := popOracle os
  let r := RobotController.send l msg p.1.1 p.1.2.1 p.1.2.2
  ((msg, r.ok), r.state, p.2)

/-- Result of one controller operation: the robot.send calls attempted in
order (message and returned success), the alignment flags, the link state,
the remaining oracle, and whether a Python TypeError was raised. -/
structure StepOut where
  sent : List (String × Bool)
  align : AlignState
  link : LinkState
  oracle : SendOracle
  typeError : Bool
deriving DecidableEq

/-- AlignmentController.handle_head_alignment, lines 230 to 242, on the
centered y coordinates of the main and head objects: skipped when the link
is not connected; rzP when the head value is below main minus one, rzM when
above main plus one, else stopc with is_adjusting_ry and adjust_position
cleared. -/
def handle_head_alignment (main_cy head_cy : ℤ) (s : AlignState)
    (l : LinkState) (os : SendOracle) : StepOut :=
  if l.is_connected = false then ⟨[], s, l, os, false⟩
  else if head_cy < main_cy - 1 then
    let r := robotSend l "rzP" os
    ⟨[r.1], s, r.2.1, r.2.2, false⟩
  else if head_cy > main_cy + 1 then
    let r := robotSend l "rzM" os
    ⟨[r.1], s, r.2.1, r.2.2, false⟩
  else
    let r := robotSend l "stopc" os
    ⟨[r.1], { s with is_adjusting_ry := false, adjust_position := false },
      r.2.1, r.2.2, false⟩

/-- AlignmentController.command_repeat, lines 244 to 255; the two
time.sleep calls of the repeat branch change no modeled state. -/
def command_repeat (mode_repeat : ℤ) (s : AlignState) (l : LinkState)
    (os : SendOracle) : StepOut :=
  if mode_repeat = 1 then
    let s1 := { s with is_adjusting_ry := false, adjust_position := true }
    let r := robotSend l "stopz" os
    ⟨[r.1], s1, r.2.1, r.2.2, false⟩
  else
    let s1 := { s with is_adjusting_ry := true, adjust_position := true }
    let r := robotSend l "stopz" os
    ⟨[r.1], s1, r.2.1, r.2.2, false⟩

/-- AlignmentController.send_alignment_commands, lines 215 to 228, the two
parameter method: x axis first, y only when x is inside its dead band, and
stopz followed by command_repeat when both axes are inside. -/
def send_alignment_commands (x y : ℤ) (mode_repeat : ℤ) (s : AlignState)
    (l : LinkState) (os : SendOracle) : StepOut :=
  let message := (get_direction_command (x : ℚ) X_RULES).getD "stopx"
  if message ≠ "stopx" then
    let r := robotSend l message os
    ⟨[r.1], s, r.2.1, r.2.2, false⟩
  else
    let message2 := (get_direction_command (y : ℚ) Y_RULES).getD "stopy"
    if message2 ≠ "stopy" then
      let r := robotSend l message2 os
      ⟨[r.1], s, r.2.1, r.2.2, false⟩
    else
      let r := robotSend l "stopz" os
      let out := command_repeat mode_repeat s r.2.1 r.2.2
      ⟨r.1 :: out.sent, out.align, out.link, out.oracle, false⟩

/-- Number of positional parameters of send_alignment_commands besides
self: x and y, line 215. -/
def send_alignment_commands_arity : Nat := 2

/-- Number of positional arguments passed to send_alignment_commands at the
call of line 511: centered_cx, centered_cy, center_distance. -/
def display_info_call_nargs : Nat := 3

/-- Per frame inputs of MainApplication.display_info: image size, main and
head detections as center coordinates (bounding boxes only drive drawing),
and the two UI mode variables read during the frame. -/
structure FrameIn where
  w : ℤ
  h : ℤ
  main_obj : Option (ℤ × ℤ)
  head_obj : Option (ℤ × ℤ)
  mode_var : ℤ
  mode_repeat : ℤ
deriving DecidableEq

/-- Lines 477 to 506 of display_info: when a main object exists, the head
alignment block guarded by is_adjusting_ry, rz mode and a head detection,
followed by the forced clearing of is_adjusting_ry and adjust_position when
rz mode is off; drawing and label updates change no modeled state. -/
def display_info_head (f : FrameIn) (s : AlignState) (l : LinkState)
    (os : SendOracle) : StepOut :=
  match f.main_obj with
  | none => ⟨[], s, l, os, false⟩
  | some (_cx, cy) =>
    let centered_cy := -(cy - Int.fdiv f.h 2)
    let a :=
      match f.head_obj with
      | some (_hcx, hcy) =>
        if s.is_adjusting_ry = true ∧ f.mode_var = 1 then
          handle_head_alignment centered_cy (-(hcy - Int.fdiv f.h 2)) s l os
        else ⟨[], s, l, os, false⟩
      | none => ⟨[], s, l, os, false⟩
    let s2 :=
      if a.align.is_adjusting_ry = true ∧ f.mode_var ≠ 1 then
        { a.align with is_adjusting_ry := false, adjust_position := false }
      else a.align
    ⟨a.sent, s2, a.link, a.oracle, false⟩

/-- MainApplication.display_info, lines 475 to 513: the head block, then the
primary axis guard of line 508; the guarded call of line 511 passes three
positional arguments to the two parameter send_alignment_commands, which in
Python raises TypeError before the method body runs, so the branch with the
arity test failing records the TypeError and performs no primary send. -/
def display_info (f : FrameIn) (s : AlignState) (l : LinkState)
    (os : SendOracle) : StepOut :=
  match f.main_obj with
  | none => ⟨[], s, l, os, false⟩
  | some (cx, cy) =>
    let centered_cx := cx - Int.fdiv f.w 2
    let centered_cy := -(cy - Int.fdiv f.h 2)
    let mid := display_info_head f s l os
    if mid.align.adjust_position = false ∧ mid.align.has_aligned_once = false ∧
        mid.link.is_connected = true then
      if display_info_call_nargs = send_alignment_commands_arity then
        let out := send_alignment_commands centered_cx centered_cy f.mode_repeat
          mid.align mid.link mid.oracle
        ⟨mid.sent ++ out.sent, out.align, out.link, out.oracle, false⟩
      else ⟨mid.sent, mid.align, mid.link, mid.oracle, true⟩
    else mid

/-- Successive frames of the rendering loop, threading alignment flags,
link state and oracle; the per frame send lists are concatenated. -/
def run_frames (fs : List FrameIn) (s : AlignState) (l : LinkState)
    (os : SendOracle) : List (String × Bool) × AlignState × LinkState × SendOracle :=
  match fs with
  | [] => ([], s, l, os)
  | f :: rest =>
    let o1 := display_info f s l os
    let r := run_frames rest o1.align o1.link o1.oracle
    (o1.sent ++ r.1, r.2)

lemma hha_align (main_cy head_cy : ℤ) (s : AlignState) (l : LinkState)
    (os : SendOracle) :
    (handle_head_alignment main_cy head_cy s l os).align =
      if l.is_connected = false then s
      else if head_cy < main_cy - 1 then s
      else if head_cy > main_cy + 1 then s
      else { s with is_adjusting_ry := false, adjust_position := false } := by
  unfold handle_head_alignment
  split_ifs <;> rfl

lemma hha_pos_false (main_cy head_cy : ℤ) (s : AlignState) (l : LinkState)
    (os : SendOracle) (h : s.adjust_position = false) :
    (handle_head_alignment main_cy head_cy s l os).align.adjust_position = false := by
  rw [hha_align]
  split_ifs <;> simp [h]

lemma display_info_head_none (f : FrameIn) (s : AlignState) (l : LinkState)
    (os : SendOracle) (hm : f.main_obj = none) :
    display_info_head f s l os = ⟨[], s, l, os, false⟩ := by
  unfold display_info_head
  rw [hm]

lemma display_info_eq (f : FrameIn) (s : AlignState) (l : LinkState)
    (os : SendOracle) :
    display_info f s l os =
      if f.main_obj.isSome = true ∧
          (display_info_head f s l os).align.adjust_position = false ∧
          (display_info_head f s l os).align.has_aligned_once = false ∧
          (display_info_head f s l os).link.is_connected = true then
        { display_info_head f s l os with typeError := true }
      else display_info_head f s l os := by
  unfold display_info
  cases hm : f.main_obj with
  | none =>
    rw [display_info_head_none f s l os hm]
    simp
  | some p =>
    obtain ⟨cx, cy⟩ := p
    dsimp only
    have hna : ¬ (display_info_call_nargs = send_alignment_commands_arity) := by
      decide
    simp only [hna, if_false, Option.isSome_some, true_and]

lemma display_info_align (f : FrameIn) (s : AlignState) (l : LinkState)
    (os : SendOracle) :
    (display_info f s l os).align = (display_info_head f s l os).align := by
  rw [display_info_eq]
  split_ifs <;> rfl

lemma display_info_head_ry_false (f : FrameIn) (s : AlignState) (l : LinkState)
    (os : SendOracle) (h : s.is_adjusting_ry = false) :
    display_info_head f s l os = ⟨[], s, l, os, false⟩ := by
  unfold display_info_head
  cases hm : f.main_obj with
  | none => rfl
  | some p =>
    obtain ⟨cx, cy⟩ := p
    cases hh : f.head_obj with
    | none => simp [h]
    | some q => simp [h]

lemma display_info_quiet (f : FrameIn) (s : AlignState) (l : LinkState)
    (os : SendOracle) (h1 : s.is_adjusting_ry = false)
    (h2 : s.adjust_position = true) :
    display_info f s l os = ⟨[], s, l, os, false⟩ := by
  rw [display_info_eq, display_info_head_ry_false f s l os h1]
  simp [h2]

lemma run_frames_quiet (fs : List FrameIn) :
    ∀ (s : AlignState) (l : LinkState) (os : SendOracle),
      s.is_adjusting_ry = false → s.adjust_position = true →
      run_frames fs s l os = ([], s, l, os) := by
  induction fs with
  | nil => intro s l os h1 h2; rfl
  | cons f rest ih =>
    intro s l os h1 h2
    unfold run_frames
    rw [display_info_quiet f s l os h1 h2]
    simp [ih s l os h1 h2]

/-- Claim C9: after a cycle completes in single object repeat mode the flags
are is_adjusting_ry false and adjust_position true, and from that state any
sequence of subsequent frames, with any detections (including coordinates
fluctuating inside the dead band), any mode values, link state and
transport outcomes, sends no command at all, in particular no primary axis
directional command, and leaves the flags unchanged; only reset_alignment
can change this state. -/
theorem C9_single_mode_lockout (s0 : AlignState) (l0 : LinkState)
    (os0 : SendOracle) (fs : List FrameIn) (l : LinkState) (os : SendOracle) :
    (command_repeat 1 s0 l0 os0).align.is_adjusting_ry = false ∧
    (command_repeat 1 s0 l0 os0).align.adjust_position = true ∧
    (run_frames fs (command_repeat 1 s0 l0 os0).align l os).1 = [] ∧
    (run_frames fs (command_repeat 1 s0 l0 os0).align l os).2.1 =
      (command_repeat 1 s0 l0 os0).align := by
  have h1 : (command_repeat 1 s0 l0 os0).align.is_adjusting_ry = false := by
    simp [command_repeat]
  have h2 : (command_repeat 1 s0 l0 os0).align.adjust_position = true := by
    simp [command_repeat]
  have h3 := run_frames_quiet fs _ l os h1 h2
  exact ⟨h1, h2, by rw [h3], by rw [h3]⟩

lemma display_info_head_pos_false (f : FrameIn) (s : AlignState)
    (l : LinkState) (os : SendOracle) (h : s.adjust_position = false) :
    (display_info_head f s l os).align.adjust_position = false := by
  unfold display_info_head
  cases hm : f.main_obj with
  | none => exact h
  | some p =>
    obtain ⟨cx, cy⟩ := p
    cases hh : f.head_obj with
    | none =>
      dsimp only
      split_ifs <;> simp [h]
    | some q =>
      obtain ⟨hcx, hcy⟩ := q
      dsimp only
      split_ifs <;>
        simp [h, hha_pos_false _ _ s l os h]

/-- Claim C4 (amended): the per frame evaluation never flips adjust_position
from false to true, because the primary axis call raises TypeError before
send_alignment_commands can run; within send_alignment_commands itself the
flip to true happens only when both axis lookups yield their stop token;
the external reset_alignment sets adjust_position true unconditionally,
with no frame and no rule lookup involved. -/
theorem C4_adjust_position_transitions :
    (∀ (f : FrameIn) (s : AlignState) (l : LinkState) (os : SendOracle),
      s.adjust_position = false →
      (display_info f s l os).align.adjust_position = false) ∧
    (∀ (x y mr : ℤ) (s : AlignState) (l : LinkState) (os : SendOracle),
      s.adjust_position = false →
      (send_alignment_commands x y mr s l os).align.adjust_position = true →
      (get_direction_command (x : ℚ) X_RULES).getD "stopx" = "stopx" ∧
      (get_direction_command (y : ℚ) Y_RULES).getD "stopy" = "stopy") ∧
    (∀ s : AlignState, (reset_alignment s).adjust_position = true) := by
  refine ⟨?_, ?_, fun s => rfl⟩
  · intro f s l os h
    rw [display_info_align]
    exact display_info_head_pos_false f s l os h
  · intro x y mr s l os h hpos
    by_cases hx : (get_direction_command (x : ℚ) X_RULES).getD "stopx" = "stopx"
    · by_cases hy : (get_direction_command (y : ℚ) Y_RULES).getD "stopy" = "stopy"
      · exact ⟨hx, hy⟩
      · exfalso
        simp [send_alignment_commands, hx, hy] at hpos
        simp [h] at hpos
    · exfalso
      simp [send_alignment_commands, hx] at hpos
      simp [h] at hpos

/-- Witness for claim C4 at concrete inputs: a frame evaluation from a
state with adjust_position false keeps it false; send_alignment_commands
with both errors zero flips it and both lookups indeed yield the stop
tokens; reset_alignment yields true. -/
theorem C4_adjust_position_witness :
    (display_info ⟨640, 480, some (320, 240), none, 1, 1⟩ ⟨false, false, false⟩
      ⟨true, true⟩ []).align.adjust_position = false ∧
    ((get_direction_command ((0 : ℤ) : ℚ) X_RULES).getD "stopx" = "stopx" ∧
      (get_direction_command ((0 : ℤ) : ℚ) Y_RULES).getD "stopy" = "stopy") ∧
    (reset_alignment ⟨false, false, false⟩).adjust_position = true :=
  ⟨C4_adjust_position_transitions.1 ⟨640, 480, some (320, 240), none, 1, 1⟩
      ⟨false, false, false⟩ ⟨true, true⟩ [] rfl,
    C4_adjust_position_transitions.2.1 0 0 1 ⟨false, false, false⟩
      ⟨true, true⟩ [] rfl (by decide),
    C4_adjust_position_transitions.2.2 ⟨false, false, false⟩⟩

/-- Claim C4 counterexample: a reachable state with adjust_position false
(reset pressed, then a frame whose head is within tolerance clears the
flag), from which the external reset operation flips adjust_position to
true although reset takes no frame errors and performs no rule lookup, so
the transition is not confined to frames where both lookups yield stop. -/
theorem C4_cex_reset_sets_true :
    (display_info ⟨640, 480, some (320, 240), some (320, 240), 1, 1⟩
      (reset_alignment AlignmentController.init) ⟨true, true⟩
      []).align.adjust_position = false ∧
    (reset_alignment (display_info ⟨640, 480, some (320, 240), some (320, 240), 1, 1⟩
      (reset_alignment AlignmentController.init) ⟨true, true⟩
      []).align).adjust_position = true := by decide

lemma hha_sent (main_cy head_cy : ℤ) (s : AlignState) (l : LinkState)
    (os : SendOracle) :
    ∀ m ∈ (handle_head_alignment main_cy head_cy s l os).sent,
      m.1 = "rzP" ∨ m.1 = "rzM" ∨ m.1 = "stopc" := by
  unfold handle_head_alignment
  split_ifs <;> intro m hm <;> simp [robotSend] at hm <;> simp [hm]

lemma display_info_head_sent (f : FrameIn) (s : AlignState) (l : LinkState)
    (os : SendOracle) :
    ∀ m ∈ (display_info_head f s l os).sent,
      m.1 = "rzP" ∨ m.1 = "rzM" ∨ m.1 = "stopc" := by
  unfold display_info_head
  cases hm : f.main_obj with
  | none => intro m hm2; simp at hm2
  | some p =>
    obtain ⟨cx, cy⟩ := p
    cases hh : f.head_obj with
    | none => intro m hm2; simp at hm2
    | some q =>
      obtain ⟨hcx, hcy⟩ := q
      dsimp only
      split_ifs with hg
      · exact hha_sent _ _ _ _ _
      · intro m hm2; simp at hm2

/-- Claim C5: for every frame with a main detection in which the primary
axis guard of line 508 holds at its evaluation point, that is on the state
after the head block and the forced clear (adjust_position false,
has_aligned_once false, link connected, whether these held at frame entry
or were produced by the head block within the frame), the call of line 511
passes three positional arguments to the two parameter
send_alignment_commands, so the frame raises TypeError, the only sends of
the frame are those of the head block, and every such send is rzP, rzM or
stopc: no primary axis command is ever sent through this path. -/
theorem C5_guard_arity_mismatch (f : FrameIn) (p : ℤ × ℤ) (s : AlignState)
    (l : LinkState) (os : SendOracle) (hm : f.main_obj = some p)
    (h2 : (display_info_head f s l os).align.adjust_position = false)
    (h3 : (display_info_head f s l os).align.has_aligned_once = false)
    (h4 : (display_info_head f s l os).link.is_connected = true) :
    display_info_call_nargs ≠ send_alignment_commands_arity ∧
    (display_info f s l os).typeError = true ∧
    (display_info f s l os).sent = (display_info_head f s l os).sent ∧
    ∀ m ∈ (display_info f s l os).sent,
      m.1 = "rzP" ∨ m.1 = "rzM" ∨ m.1 = "stopc" := by
  have hg : f.main_obj.isSome = true := by rw [hm]; rfl
  refine ⟨by decide, ?_, ?_, ?_⟩
  · rw [display_info_eq, if_pos ⟨hg, h2, h3, h4⟩]
  · rw [display_info_eq, if_pos ⟨hg, h2, h3, h4⟩]
  · rw [display_info_eq, if_pos ⟨hg, h2, h3, h4⟩]
    exact display_info_head_sent f s l os

/-- Witness for claim C5 at the canonical guard triggering frame: entered
right after a reset with is_adjusting_ry true, the head settles within
tolerance, stopc clears adjust_position mid frame, and the guard then holds
at its evaluation point. -/
theorem C5_guard_arity_mismatch_witness :
    display_info_call_nargs ≠ send_alignment_commands_arity ∧
    (display_info ⟨640, 480, some (320, 240), some (320, 240), 1, 1⟩
      ⟨true, true, false⟩ ⟨true, true⟩ []).typeError = true ∧
    (display_info ⟨640, 480, some (320, 240), some (320, 240), 1, 1⟩
      ⟨true, true, false⟩ ⟨true, true⟩ []).sent =
      (display_info_head ⟨640, 480, some (320, 240), some (320, 240), 1, 1⟩
        ⟨true, true, false⟩ ⟨true, true⟩ []).sent ∧
    ∀ m ∈ (display_info ⟨640, 480, some (320, 240), some (320, 240), 1, 1⟩
      ⟨true, true, false⟩ ⟨true, true⟩ []).sent,
      m.1 = "rzP" ∨ m.1 = "rzM" ∨ m.1 = "stopc" :=
  C5_guard_arity_mismatch ⟨640, 480, some (320, 240), some (320, 240), 1, 1⟩
    (320, 240) ⟨true, true, false⟩ ⟨true, true⟩ [] rfl (by decide) (by decide)
    (by decide)

/-- Claim C6 (amended): whenever the head object lies above the main object
in image space by more than the one pixel tolerance (head pixel row hcy
strictly less than cy - 1, hence centered head value above centered main
value by more than 1), handle_head_alignment on the centered coordinates
sends rzM, the rotate negative command, and leaves all alignment flags
unchanged, so is_adjusting_ry in particular remains true when it was true;
rzP is sent in the opposite case. -/
theorem C6_head_above_sends_rzM (cy hcy halfh : ℤ) (s : AlignState)
    (l : LinkState) (os : SendOracle) (hc : l.is_connected = true)
    (habove : hcy < cy - 1) :
    (handle_head_alignment (-(cy - halfh)) (-(hcy - halfh)) s l os).sent.map
      Prod.fst = ["rzM"] ∧
    (handle_head_alignment (-(cy - halfh)) (-(hcy - halfh)) s l os).align = s := by
  have h0 : ¬ (l.is_connected = false) := by simp [hc]
  have h1 : ¬ (-(hcy - halfh) < -(cy - halfh) - 1) := by omega
  have h2 : -(hcy - halfh) > -(cy - halfh) + 1 := by omega
  unfold handle_head_alignment
  rw [if_neg h0, if_neg h1, if_pos h2]
  exact ⟨rfl, rfl⟩

/-- Witness for claim C6: main at pixel row 240 with image center row 240,
head at row 235 (5 pixels above), is_adjusting_ry true and link connected. -/
theorem C6_head_above_witness :
    (handle_head_alignment (-(240 - 240)) (-(235 - 240)) ⟨true, true, false⟩
      ⟨true, true⟩ []).sent.map Prod.fst = ["rzM"] ∧
    (handle_head_alignment (-(240 - 240)) (-(235 - 240)) ⟨true, true, false⟩
      ⟨true, true⟩ []).align = ⟨true, true, false⟩ :=
  C6_head_above_sends_rzM 240 235 240 ⟨true, true, false⟩ ⟨true, true⟩ []
    rfl (by decide)

/-- Claim C6 counterexample: frame with the main object exactly at the image
center of a 640 by 480 image and the head 5 pixels above it in image space,
rz mode on and is_adjusting_ry true: the per frame evaluation sends rzM and
never rzP, refuting that the rotate positive command rzP is emitted; the
flag is_adjusting_ry does remain true. -/
theorem C6_cex_scenario_rzM :
    (display_info ⟨640, 480, some (320, 240), some (320, 235), 1, 1⟩
      ⟨true, true, false⟩ ⟨true, true⟩ []).sent = [("rzM", true)] ∧
    (display_info ⟨640, 480, some (320, 240), some (320, 235), 1, 1⟩
      ⟨true, true, false⟩ ⟨true, true⟩ []).align.is_adjusting_ry = true ∧
    ("rzP", true) ∉ (display_info ⟨640, 480, some (320, 240), some (320, 235), 1, 1⟩
      ⟨true, true, false⟩ ⟨true, true⟩ []).sent ∧
    ("rzP", false) ∉ (display_info ⟨640, 480, some (320, 240), some (320, 235), 1, 1⟩
      ⟨true, true, false⟩ ⟨true, true⟩ []).sent := by decide

/-- Claim C7 (amended): for a main detection at cx 300 on an image whose
center column is 320 the horizontal error is -20; the x table maps -20 to
left, the token of the interval from -20 to -1, because -20 is excluded
from the half open interval from -100 to -20; send_alignment_commands then
attempts exactly the one send left and returns without evaluating the y
axis and without touching the alignment flags. -/
theorem C7_scenario_left (mr : ℤ) (s : AlignState) (l : LinkState)
    (os : SendOracle) :
    ((300 : ℤ) - Int.fdiv 640 2 = -20) ∧
    (-((240 : ℤ) - Int.fdiv 480 2) = 0) ∧
    get_direction_command (-20) X_RULES = some "left" ∧
    (send_alignment_commands (-20) 0 mr s l os).sent.map Prod.fst = ["left"] ∧
    (send_alignment_commands (-20) 0 mr s l os).align = s := by
  have hx : (get_direction_command (-20 : ℚ) X_RULES).getD "stopx"
      = "left" := by decide
  refine ⟨by decide, by decide, by decide, ?_, ?_⟩ <;>
    simp [send_alignment_commands, hx, robotSend]

/-- Claim C7 counterexample: the claim places -20 in the half open interval
from -100 to -20 with token mleft, but that interval excludes its upper
bound: the lookup on -20 yields left, not mleft. -/
theorem C7_cex_minus20_left :
    ((300 : ℤ) - Int.fdiv 640 2 = -20) ∧
    get_direction_command (-20) X_RULES = some "left" ∧
    get_direction_command (-20) X_RULES ≠ some "mleft" := by decide

lemma display_info_head_align_oracle (f : FrameIn) (s : AlignState)
    (l : LinkState) (os os' : SendOracle) :
    (display_info_head f s l os).align = (display_info_head f s l os').align := by
  unfold display_info_head
  cases hm : f.main_obj with
  | none => rfl
  | some p =>
    obtain ⟨cx, cy⟩ := p
    cases hh : f.head_obj with
    | none => rfl
    | some q =>
      obtain ⟨hcx, hcy⟩ := q
      dsimp only
      by_cases hg : s.is_adjusting_ry = true ∧ f.mode_var = 1
      · rw [if_pos hg, if_pos hg]
        rw [hha_align, hha_align]
      · rw [if_neg hg, if_neg hg]

/-- Claim C8 (amended): the alignment flags computed by a frame do not
depend on the outcome of any send: a failed send yields exactly the same
flag values as a successful one, so a failed send does not leave the flags
unchanged when the geometry dictates an update (see the counterexample);
only when the link already reports not connected at the entry of the head
alignment is that operation skipped entirely with no sends and no state
change. -/
theorem C8_flags_ignore_send_outcomes :
    (∀ (f : FrameIn) (s : AlignState) (l : LinkState) (os os' : SendOracle),
      (display_info f s l os).align = (display_info f s l os').align) ∧
    (∀ (main_cy head_cy : ℤ) (s : AlignState) (l : LinkState) (os : SendOracle),
      l.is_connected = false →
      handle_head_alignment main_cy head_cy s l os = ⟨[], s, l, os, false⟩) := by
  constructor
  · intro f s l os os'
    rw [display_info_align, display_info_align]
    exact display_info_head_align_oracle f s l os os'
  · intro main_cy head_cy s l os h
    unfold handle_head_alignment
    simp [h]

/-- Witness for claim C8: the same frame evaluated against a failing and
against a healthy transport yields the same flags, and a disconnected link
skips head alignment with no state change. -/
theorem C8_flags_witness :
    (display_info ⟨640, 480, some (320, 240), some (320, 240), 1, 1⟩
      ⟨true, true, false⟩ ⟨true, true⟩ [(false, true, false)]).align =
      (display_info ⟨640, 480, some (320, 240), some (320, 240), 1, 1⟩
        ⟨true, true, false⟩ ⟨true, true⟩ []).align ∧
    handle_head_alignment 0 5 ⟨true, true, false⟩ ⟨true, false⟩ [] =
      ⟨[], ⟨true, true, false⟩, ⟨true, false⟩, [], false⟩ :=
  ⟨C8_flags_ignore_send_outcomes.1 ⟨640, 480, some (320, 240), some (320, 240), 1, 1⟩
      ⟨true, true, false⟩ ⟨true, true⟩ [(false, true, false)] [],
    C8_flags_ignore_send_outcomes.2 0 5 ⟨true, true, false⟩ ⟨true, false⟩ [] rfl⟩

/-- Claim C8 counterexample: head within tolerance and the stopc send fails
(first write fails, reconnect succeeds, retried write fails, so the send
returns failure and the link ends disconnected), yet the controller still
clears is_adjusting_ry and adjust_position: a failed send does change the
alignment flags within the frame. -/
theorem C8_cex_failed_send_changes_flags :
    (display_info ⟨640, 480, some (320, 240), some (320, 240), 1, 1⟩
      ⟨true, true, false⟩ ⟨true, true⟩ [(false, true, false)]).sent =
      [("stopc", false)] ∧
    (display_info ⟨640, 480, some (320, 240), some (320, 240), 1, 1⟩
      ⟨true, true, false⟩ ⟨true, true⟩ [(false, true, false)]).align =
      ⟨false, false, false⟩ ∧
    (⟨false, false, false⟩ : AlignState) ≠ ⟨true, true, false⟩ := by decide

lemma hha_has (main_cy head_cy : ℤ) (s : AlignState) (l : LinkState)
    (os : SendOracle) :
    (handle_head_alignment main_cy head_cy s l os).align.has_aligned_once =
      s.has_aligned_once := by
  rw [hha_align]
  split_ifs <;> rfl

lemma cr_has (mr : ℤ) (s : AlignState) (l : LinkState) (os : SendOracle) :
    (command_repeat mr s l os).align.has_aligned_once = s.has_aligned_once := by
  unfold command_repeat
  split_ifs <;> rfl

lemma sac_has (x y mr : ℤ) (s : AlignState) (l : LinkState) (os : SendOracle) :
    (send_alignment_commands x y mr s l os).align.has_aligned_once =
      s.has_aligned_once := by
  by_cases hx : (get_direction_command (x : ℚ) X_RULES).getD "stopx" = "stopx"
  · by_cases hy : (get_direction_command (y : ℚ) Y_RULES).getD "stopy" = "stopy"
    · simp [send_alignment_commands, hx, hy, cr_has]
    · simp [send_alignment_commands, hx, hy]
  · simp [send_alignment_commands, hx]

lemma display_info_head_has (f : FrameIn) (s : AlignState) (l : LinkState)
    (os : SendOracle) :
    (display_info_head f s l os).align.has_aligned_once = s.has_aligned_once := by
  unfold display_info_head
  cases hm : f.main_obj with
  | none => rfl
  | some p =>
    obtain ⟨cx, cy⟩ := p
    cases hh : f.head_obj with
    | none =>
      dsimp only
      split_ifs <;> rfl
    | some q =>
      obtain ⟨hcx, hcy⟩ := q
      dsimp only
      split_ifs <;> simp [hha_has]

/-- Claim C10 (amended): has_aligned_once never becomes true: it is false
initially, it is preserved unchanged by every frame operation including
cycle completion, and the only operation that writes it, the external
reset_alignment, writes false; in particular it is not set after a full
alignment cycle completes. -/
theorem C10_has_aligned_once_never_set :
    AlignmentController.init.has_aligned_once = false ∧
    (∀ s : AlignState, (reset_alignment s).has_aligned_once = false) ∧
    (∀ (main_cy head_cy : ℤ) (s : AlignState) (l : LinkState) (os : SendOracle),
      (handle_head_alignment main_cy head_cy s l os).align.has_aligned_once =
        s.has_aligned_once) ∧
    (∀ (mr : ℤ) (s : AlignState) (l : LinkState) (os : SendOracle),
      (command_repeat mr s l os).align.has_aligned_once = s.has_aligned_once) ∧
    (∀ (x y mr : ℤ) (s : AlignState) (l : LinkState) (os : SendOracle),
      (send_alignment_commands x y mr s l os).align.has_aligned_once =
        s.has_aligned_once) ∧
    (∀ (f : FrameIn) (s : AlignState) (l : LinkState) (os : SendOracle),
      (display_info f s l os).align.has_aligned_once = s.has_aligned_once) :=
  ⟨rfl, fun _ => rfl, hha_has, cr_has, sac_has, fun f s l os => by
    rw [display_info_align]
    exact display_info_head_has f s l os⟩

/-- Claim C10 counterexample: a full alignment cycle completes, with both
axis errors zero and single object mode, so stopz is sent and
command_repeat runs, yet has_aligned_once is still false afterwards,
refuting that it becomes true after a full alignment cycle. -/
theorem C10_cex_cycle_leaves_false :
    (send_alignment_commands 0 0 1 ⟨true, false, false⟩ ⟨true, true⟩ []).sent.map
      Prod.fst = ["stopz", "stopz"] ∧
    (send_alignment_commands 0 0 1 ⟨true, false, false⟩
      ⟨true, true⟩ []).align.has_aligned_once = false := by decide
